import Mathlib

/-!
Shallow embedding of the NooDS interpreter core (`src/interpreter.cpp`):
the banked register file, CPSR/SPSR handling, pipeline refill, the
interrupt subsystem, and the NDS dual-CPU drive loop, together with
theorems checking the natural-language specification against the code.

Machine integers are modelled as `Nat` with explicit `% 2^32` (or masks)
where 32-bit wraparound matters.  The two CPUs are identified by a `Bool`
as in the source (`false` = ARM9, `true` = ARM7).
-/

namespace NooDS

/-- 2^32, the modulus of 32-bit arithmetic. -/
def M32 : Nat := 4294967296

/-- 32-bit complement, `~x` on a `uint32_t`. -/
def lnot32 (x : Nat) : Nat := 0xFFFFFFFF ^^^ (x &&& 0xFFFFFFFF)

/-- 32-bit subtraction `a - b` (the source subtracts on `uint32_t`). -/
def sub32 (a b : Nat) : Nat := (a + M32 - b % M32) % M32

/-- Pointwise function update on `Nat`-indexed arrays. -/
def upd (f : Nat → Nat) (i v : Nat) : Nat → Nat :=
  fun j => if j = i then v else f j

/-- A cell of the banked register backing store: the target of one of the
`registers[16]` pointers of the source (`registersUsr` / `registersFiq` /
`registersIrq` / `registersSvc` / `registersAbt` / `registersUnd`). -/
inductive Cell where
  | usr (i : Nat)
  | fiq (i : Nat)
  | irq (i : Nat)
  | svc (i : Nat)
  | abt (i : Nat)
  | und (i : Nat)
deriving DecidableEq

/-- Which banked SPSR the `spsr` pointer of the source refers to. -/
inductive SpsrRef where
  | fiq
  | irq
  | svc
  | abt
  | und
deriving DecidableEq

/-- The memory bus consumed by the core: typed reads parameterized by the
issuing CPU (`false` = ARM9, `true` = ARM7), as in `core->memory.read<T>`. -/
structure MemBus where
  read16 : Bool → Nat → Nat
  read32 : Bool → Nat → Nat

/-- Identity of a scheduled task: either a CPU's deferred `interrupt` task
or some external task. -/
inductive TaskId where
  | interruptOf (cpu : Bool)
  | external (n : Nat)
deriving DecidableEq

/-- One entry of the scheduler's task list: absolute cycle stamp plus task. -/
structure SchedTask where
  cycles : Nat
  id : TaskId
deriving DecidableEq

/-- The slice of `Core` state the interpreter interacts with: the global
cycle counter, the ordered task list and the GBA-mode flag. -/
structure CoreSched where
  globalCycles : Nat
  tasks : List SchedTask
  gbaMode : Bool

/-- State of one `Interpreter` instance (one CPU). -/
structure Interp where
  registersUsr : Nat → Nat
  registersFiq : Nat → Nat
  registersIrq : Nat → Nat
  registersSvc : Nat → Nat
  registersAbt : Nat → Nat
  registersUnd : Nat → Nat
  /-- Which backing cell each of `registers[0..15]` points to. -/
  binding : Nat → Cell
  /-- The `spsr` pointer; `none` models `nullptr`. -/
  spsrRef : Option SpsrRef
  spsrFiq : Nat
  spsrIrq : Nat
  spsrSvc : Nat
  spsrAbt : Nat
  spsrUnd : Nat
  cpsr : Nat
  pipeline0 : Nat
  pipeline1 : Nat
  halted : Nat
  cycles : Nat
  ime : Nat
  ie : Nat
  irf : Nat
  postFlg : Nat
  cpu : Bool

/-- Read the value stored in a backing cell. -/
def readCell (s : Interp) : Cell → Nat
  | .usr i => s.registersUsr i
  | .fiq i => s.registersFiq i
  | .irq i => s.registersIrq i
  | .svc i => s.registersSvc i
  | .abt i => s.registersAbt i
  | .und i => s.registersUnd i

/-- Write a value into a backing cell. -/
def writeCell (s : Interp) (c : Cell) (v : Nat) : Interp :=
  match c with
  | .usr i => { s with registersUsr := upd s.registersUsr i v }
  | .fiq i => { s with registersFiq := upd s.registersFiq i v }
  | .irq i => { s with registersIrq := upd s.registersIrq i v }
  | .svc i => { s with registersSvc := upd s.registersSvc i v }
  | .abt i => { s with registersAbt := upd s.registersAbt i v }
  | .und i => { s with registersUnd := upd s.registersUnd i v }

/-- `*registers[i]`: read register `i` through its current binding. -/
def getReg (s : Interp) (i : Nat) : Nat := readCell s (s.binding i)

/-- `*registers[i] = v`: write register `i` through its current binding. -/
def setReg (s : Interp) (i v : Nat) : Interp := writeCell s (s.binding i) v

/-- Read the banked SPSR value named by a reference. -/
def readSpsrBank (s : Interp) : SpsrRef → Nat
  | .fiq => s.spsrFiq
  | .irq => s.spsrIrq
  | .svc => s.spsrSvc
  | .abt => s.spsrAbt
  | .und => s.spsrUnd

/-- Write the banked SPSR value named by a reference. -/
def writeSpsrBank (s : Interp) (r : SpsrRef) (v : Nat) : Interp :=
  match r with
  | .fiq => { s with spsrFiq := v }
  | .irq => { s with spsrIrq := v }
  | .svc => { s with spsrSvc := v }
  | .abt => { s with spsrAbt := v }
  | .und => { s with spsrUnd := v }

/-- `*spsr`, with the source's unconditional dereference modelled as a
default of 0 when the pointer is null (never exercised on the paths the
theorems take). -/
def readSpsr (s : Interp) : Nat :=
  match s.spsrRef with
  | some r => readSpsrBank s r
  | none => 0

/-- `Interpreter::writeIrf` (src/interpreter.cpp:405-410): writing 1 to a
bit clears it, `irf &= ~(value & mask)`. -/
def writeIrf (s : Interp) (mask value : Nat) : Interp :=
  { s with irf := s.irf &&& lnot32 (value &&& mask) }

/-- `Interpreter::writePostFlg` (src/interpreter.cpp:412-419): bit 0 is
sticky-set; on the ARM9 (cpu = false) bit 1 is freely written.  The
parameter and the `postFlg` store are `uint8_t`, hence `% 256`. -/
def writePostFlg (s : Interp) (value : Nat) : Interp :=
  let v := value % 256
  let s1 := { s with postFlg := (s.postFlg ||| (v &&& 0x01)) % 256 }
  if s1.cpu = false then
    { s1 with postFlg := ((s1.postFlg &&& lnot32 0x02) ||| (v &&& 0x02)) % 256 }
  else s1

/-- Modelled from the spec: `Core::schedule` (core.cpp is not in the
excerpt) inserts a task at the absolute stamp `globalCycles + delay`,
keeping `tasks` ordered by cycle stamp with ties broken by insertion
order (tail insertion at an equal key). -/
def insertTask : List SchedTask → SchedTask → List SchedTask
  | [], t => [t]
  | h :: rest, t => if h.cycles ≤ t.cycles then h :: insertTask rest t else t :: h :: rest

/-- Modelled from the spec: `core->schedule(Task(&task, delay))` enqueues
the task at `globalCycles + delay`. -/
def schedule (c : CoreSched) (id : TaskId) (delay : Nat) : CoreSched :=
  { c with tasks := insertTask c.tasks ⟨c.globalCycles + delay, id⟩ }

/-- Rebind `registers[8..14]` to the given seven cells, leaving all other
slots untouched (one `case` arm of the `setCpsr` switch). -/
def bindR8toR14 (b : Nat → Cell) (c8 c9 c10 c11 c12 c13 c14 : Cell) : Nat → Cell :=
  fun i =>
    if i = 8 then c8 else if i = 9 then c9 else if i = 10 then c10
    else if i = 11 then c11 else if i = 12 then c12 else if i = 13 then c13
    else if i = 14 then c14 else b i

/-- The bank-swap switch of `Interpreter::setCpsr`
(src/interpreter.cpp:230-302), entered only when the mode bits changed.
An unrecognized mode is logged and leaves the bindings unchanged. -/
def applyModeSwap (s : Interp) (mode : Nat) : Interp :=
  if mode = 0x10 ∨ mode = 0x1F then
    { s with
      binding := bindR8toR14 s.binding (.usr 8) (.usr 9) (.usr 10) (.usr 11)
        (.usr 12) (.usr 13) (.usr 14)
      spsrRef := none }
  else if mode = 0x11 then
    { s with
      binding := bindR8toR14 s.binding (.fiq 0) (.fiq 1) (.fiq 2) (.fiq 3)
        (.fiq 4) (.fiq 5) (.fiq 6)
      spsrRef := some .fiq }
  else if mode = 0x12 then
    { s with
      binding := bindR8toR14 s.binding (.usr 8) (.usr 9) (.usr 10) (.usr 11)
        (.usr 12) (.irq 0) (.irq 1)
      spsrRef := some .irq }
  else if mode = 0x13 then
    { s with
      binding := bindR8toR14 s.binding (.usr 8) (.usr 9) (.usr 10) (.usr 11)
        (.usr 12) (.svc 0) (.svc 1)
      spsrRef := some .svc }
  else if mode = 0x17 then
    { s with
      binding := bindR8toR14 s.binding (.usr 8) (.usr 9) (.usr 10) (.usr 11)
        (.usr 12) (.abt 0) (.abt 1)
      spsrRef := some .abt }
  else if mode = 0x1B then
    { s with
      binding := bindR8toR14 s.binding (.usr 8) (.usr 9) (.usr 10) (.usr 11)
        (.usr 12) (.und 0) (.und 1)
      spsrRef := some .und }
  else s

/-- The interrupt-task delay of the source:
`(cpu == 1 && !core->gbaMode) ? 2 : 1`. -/
def irqDelay (cpu : Bool) (gbaMode : Bool) : Nat :=
  if cpu = true ∧ gbaMode = false then 2 else 1

/-- `if (save && spsr) *spsr = cpsr;` — snapshot the old CPSR into the
currently bound banked SPSR when requested and one exists. -/
def saveSpsr (s : Interp) (save : Bool) : Interp :=
  match save, s.spsrRef with
  | true, some r => writeSpsrBank s r s.cpsr
  | _, _ => s

/-- `Interpreter::setCpsr` (src/interpreter.cpp:225-312): swap banked
registers when the mode bits changed, optionally save the old CPSR into
the (new) banked SPSR, store the new CPSR, then re-check the interrupt
condition and schedule the deferred `interrupt` task if it holds. -/
def setCpsr (s : Interp) (value : Nat) (save : Bool) (c : CoreSched) :
    Interp × CoreSched :=
  let s1 := if value &&& 0x1F ≠ s.cpsr &&& 0x1F then applyModeSwap s (value &&& 0x1F) else s
  let s3 : Interp := { saveSpsr s1 save with cpsr := value }
  if s3.ime ≠ 0 ∧ s3.ie &&& s3.irf ≠ 0 ∧ s3.cpsr &&& 0x80 = 0 then
    (s3, schedule c (.interruptOf s3.cpu) (irqDelay s3.cpu c.gbaMode))
  else (s3, c)

/-- `Interpreter::flushPipeline` (src/interpreter.cpp:208-223): realign
the PC to instruction width, advance it one fetch, and refill both
pipeline slots from memory. -/
def flushPipeline (mem : MemBus) (s : Interp) : Interp :=
  if s.cpsr &&& 0x20 ≠ 0 then
    let pc := ((getReg s 15 &&& 0xFFFFFFFE) + 2) % M32
    let s1 := setReg s 15 pc
    { s1 with
      pipeline0 := mem.read16 s1.cpu (sub32 pc 2)
      pipeline1 := mem.read16 s1.cpu pc }
  else
    let pc := ((getReg s 15 &&& 0xFFFFFFFC) + 4) % M32
    let s1 := setReg s 15 pc
    { s1 with
      pipeline0 := mem.read32 s1.cpu (sub32 pc 4)
      pipeline1 := mem.read32 s1.cpu pc }

/-- The vector-indexed target-mode table of `Interpreter::exception`:
`{ 0x13, 0x1B, 0x13, 0x17, 0x17, 0x13, 0x12, 0x11 }`. -/
def exceptionModes (i : Nat) : Nat :=
  match i with
  | 0 => 0x13
  | 1 => 0x1B
  | 2 => 0x13
  | 3 => 0x17
  | 4 => 0x17
  | 5 => 0x13
  | 6 => 0x12
  | 7 => 0x11
  | _ => 0

/-- `Interpreter::exception` (src/interpreter.cpp:193-206).  `excAddr` is
`core->cp15.getExceptionAddr()` and `biosActive` is the `bios` pointer
being non-null; when the HLE BIOS branch is taken the call delegates to
external code, modelled as `none`.  Otherwise returns the new state, the
(possibly updated) scheduler and the cycle cost 3. -/
def exception (mem : MemBus) (excAddr : Nat) (biosActive : Bool) (s : Interp)
    (c : CoreSched) (vector : Nat) : Option (Interp × CoreSched × Nat) :=
  if biosActive ∧ (s.cpu = true ∨ excAddr ≠ 0) then none
  else
    let newCpsr := (s.cpsr &&& 0xFFFFFFC0) ||| 0x80 ||| exceptionModes (vector >>> 2)
    let s1 := (setCpsr s newCpsr true c).1
    let c1 := (setCpsr s newCpsr true c).2
    let s2 := setReg s1 14 ((getReg s1 15 + (if readSpsr s1 &&& 0x20 ≠ 0 then 2 else 0)) % M32)
    let s3 := setReg s2 15 (((if s2.cpu = true then 0 else excAddr) + vector) % M32)
    some (flushPipeline mem s3, c1, 3)

/-- `Interpreter::sendInterrupt` (src/interpreter.cpp:167-181): set the
request bit; if an enabled interrupt is pending, either schedule the
deferred `interrupt` task (interrupts enabled) or just clear halt bit 0
(ARM9 needs IME set to wake, the ARM7 wakes regardless). -/
def sendInterrupt (s : Interp) (c : CoreSched) (bit : Nat) : Interp × CoreSched :=
  let s1 := { s with irf := s.irf ||| (1 <<< bit) }
  if s1.ie &&& s1.irf ≠ 0 then
    if s1.ime ≠ 0 ∧ s1.cpsr &&& 0x80 = 0 then
      (s1, schedule c (.interruptOf s1.cpu) (irqDelay s1.cpu c.gbaMode))
    else if s1.ime ≠ 0 ∨ s1.cpu = true then
      ({ s1 with halted := s1.halted &&& lnot32 0x01 }, c)
    else (s1, c)
  else (s1, c)

/-- `Interpreter::interrupt` (src/interpreter.cpp:183-191), the body of
the scheduled task: if the pending condition still holds, enter the
exception at vector 0x18 and clear halt bit 0. -/
def interruptRun (mem : MemBus) (excAddr : Nat) (biosActive : Bool) (s : Interp)
    (c : CoreSched) : Option (Interp × CoreSched) :=
  if s.ime ≠ 0 ∧ s.ie &&& s.irf ≠ 0 ∧ s.cpsr &&& 0x80 = 0 then
    match exception mem excAddr biosActive s c 0x18 with
    | some (s1, c1, _) => some ({ s1 with halted := s1.halted &&& lnot32 0x01 }, c1)
    | none => none
  else some (s, c)

/-- `Interpreter::init` (src/interpreter.cpp:32-43): enter Supervisor
mode with interrupts off, point the PC at the exception base, flush the
pipeline, and clear IME/IE/IRF/POSTFLG. -/
def init (mem : MemBus) (s : Interp) (c : CoreSched) : Interp × CoreSched :=
  let s1 := (setCpsr s 0x000000D3 false c).1
  let c1 := (setCpsr s 0x000000D3 false c).2
  let s2 := { s1 with
    registersUsr := upd s1.registersUsr 15 (if s1.cpu = false then 0xFFFF0000 else 0) }
  let s3 := flushPipeline mem s2
  ({ s3 with ime := 0, ie := 0, irf := 0, postFlg := 0 }, c1)

/-- `Interpreter::directBoot` (src/interpreter.cpp:45-70): read the entry
address from the cartridge header in guest RAM (note both branches issue
the read with CPU id 0), seed the banked stack pointers, enter System
mode, seed R12/R14/R15 with the entry address and flush the pipeline. -/
def directBoot (mem : MemBus) (s : Interp) (c : CoreSched) : Interp × CoreSched :=
  let entryAddr :=
    if s.cpu = false then mem.read32 false 0x27FFE24 else mem.read32 false 0x27FFE34
  let s1 :=
    if s.cpu = false then
      { s with
        registersUsr := upd s.registersUsr 13 0x03002F7C
        registersIrq := upd s.registersIrq 0 0x03003F80
        registersSvc := upd s.registersSvc 0 0x03003FC0 }
    else
      { s with
        registersUsr := upd s.registersUsr 13 0x0380FD80
        registersIrq := upd s.registersIrq 0 0x0380FF80
        registersSvc := upd s.registersSvc 0 0x0380FFC0 }
  let s2 := (setCpsr s1 0x000000DF false c).1
  let c1 := (setCpsr s1 0x000000DF false c).2
  let s3 := { s2 with
    registersUsr := upd (upd (upd s2.registersUsr 12 entryAddr) 14 entryAddr) 15 entryAddr }
  (flushPipeline mem s3, c1)

/-- `Interpreter::unkArm` (src/interpreter.cpp:370-375): log the unknown
opcode and return cycle cost 1. -/
def unkArm (_opcode : Nat) : Nat := 1

/-- The six DLDI callbacks whose sentinel opcodes `handleReserved`
recognizes. -/
inductive DldiFn where
  | start
  | insert
  | read
  | write
  | clear
  | stop
deriving DecidableEq

/-- Modelled from the spec: the six DLDI sentinel opcode values
(`DLDI_START` etc., defined in dldi.h which is not in the excerpt) are
some fixed distinct constants. -/
structure DldiSentinels where
  start : Nat
  insert : Nat
  read : Nat
  write : Nat
  clear : Nat
  stop : Nat

/-- The `switch (opcode)` of the DLDI block in `handleReserved`: which
callback, if any, the opcode selects. -/
def sentinelMatch (d : DldiSentinels) (opcode : Nat) : Option DldiFn :=
  if opcode = d.start then some .start
  else if opcode = d.insert then some .insert
  else if opcode = d.read then some .read
  else if opcode = d.write then some .write
  else if opcode = d.clear then some .clear
  else if opcode = d.stop then some .stop
  else none

/-- Control-flow outcome of `Interpreter::handleReserved`
(src/interpreter.cpp:314-340). `dldiRet cb` is the patched-DLDI path:
invoke callback `cb` (none when the switch falls through) and return via
`bx(14)`; `unknown k` is the `unkArm` path with its cycle cost `k`. -/
inductive ReservedOutcome where
  | blxLabel
  | finishHle
  | dldiRet (callback : Option DldiFn)
  | unknown (cost : Nat)
deriving DecidableEq

/-- `Interpreter::handleReserved` (src/interpreter.cpp:314-340) as a
decision on the control-flow outcome. -/
def handleReserved (biosActive patched : Bool) (d : DldiSentinels) (opcode : Nat) :
    ReservedOutcome :=
  if opcode &&& 0x0E000000 = 0x0A000000 then .blxLabel
  else if biosActive ∧ opcode = 0xFF000000 then .finishHle
  else if patched then .dldiRet (sentinelMatch d opcode)
  else .unknown (unkArm opcode)

/-! ### The NDS dual-CPU drive loop (src/interpreter.cpp:78-112) -/

/-- The loop-local state of one inner iteration of `runNdsFrame`: the two
CPUs' local cycle counters and halt flags (the `halted` bitmask abstracted
to its truthiness) plus the global cycle counter. -/
structure NdsLoop where
  arm9Cycles : Nat
  arm7Cycles : Nat
  arm9Halted : Bool
  arm7Halted : Bool
  globalCycles : Nat

/-- `(uint32_t)(x.halted ? -1 : x.cycles)`: the value a CPU contributes
to the `std::min<uint32_t>` of the drive loop. -/
def haltedCyc (halted : Bool) (cyc : Nat) : Nat :=
  if halted then 0xFFFFFFFF else cyc % M32

/-- Outcome of one `runOpcode` call, abstracted: its cycle cost and the
halt flags after it ran (an opcode may halt its own CPU or, through the
interrupt path, wake the other). -/
structure OpRun where
  cost : Nat
  halted9 : Bool
  halted7 : Bool

/-- One iteration of the inner loop of `Interpreter::runNdsFrame`
(src/interpreter.cpp:87-100): run the ARM9 if due, run the ARM7 at half
speed if due, then count `globalCycles` up to the next soonest event.
`run9`/`run7` abstract the two `runOpcode` calls. -/
def ndsInnerIter (run9 run7 : NdsLoop → OpRun) (st : NdsLoop) : NdsLoop :=
  let st1 :=
    if st.arm9Halted = false ∧ st.arm9Cycles ≤ st.globalCycles then
      let r := run9 st
      { st with
        arm9Cycles := (st.globalCycles + r.cost) % M32
        arm9Halted := r.halted9
        arm7Halted := r.halted7 }
    else st
  let st2 :=
    if st1.arm7Halted = false ∧ st1.arm7Cycles ≤ st1.globalCycles then
      let r := run7 st1
      { st1 with
        arm7Cycles := (st1.globalCycles + (r.cost <<< 1)) % M32
        arm9Halted := r.halted9
        arm7Halted := r.halted7 }
    else st1
  { st2 with
    globalCycles :=
      min (haltedCyc st2.arm9Halted st2.arm9Cycles) (haltedCyc st2.arm7Halted st2.arm7Cycles) }

/-- The defined CPU modes of the section 4.1 table. -/
def knownModes : List Nat := [0x10, 0x11, 0x12, 0x13, 0x17, 0x1B, 0x1F]

/-- The R8-R14 column of the section 4.1 mode table, stated from the
spec's words: FIQ rebinds all of R8-R14 (and R13/R14 are `Fiq[5..6]`);
IRQ/Supervisor/Abort/Undefined rebind only R13/R14; User and System bind
everything to user storage. -/
def specBankCell (m slot : Nat) : Cell :=
  if m = 0x11 then .fiq (slot - 8)
  else if slot ≤ 12 then .usr slot
  else if m = 0x12 then .irq (slot - 13)
  else if m = 0x13 then .svc (slot - 13)
  else if m = 0x17 then .abt (slot - 13)
  else if m = 0x1B then .und (slot - 13)
  else .usr slot

/-- The SPSR column of the section 4.1 mode table. -/
def specSpsrRef (m : Nat) : Option SpsrRef :=
  if m = 0x11 then some .fiq
  else if m = 0x12 then some .irq
  else if m = 0x13 then some .svc
  else if m = 0x17 then some .abt
  else if m = 0x1B then some .und
  else none

/-- A memory bus that returns 0 for every read. -/
def memZero : MemBus := ⟨fun _ _ => 0, fun _ _ => 0⟩

/-- A concrete ARM9 CPU state for evaluating the theorems: User mode
(CPSR = 0x10, so IRQs enabled), all register slots bound to user storage,
IME = IE = IRF = 1. -/
def baseInterp : Interp where
  registersUsr := fun _ => 0
  registersFiq := fun _ => 0
  registersIrq := fun _ => 0
  registersSvc := fun _ => 0
  registersAbt := fun _ => 0
  registersUnd := fun _ => 0
  binding := fun i => .usr i
  spsrRef := none
  spsrFiq := 0
  spsrIrq := 0
  spsrSvc := 0
  spsrAbt := 0
  spsrUnd := 0
  cpsr := 0x10
  pipeline0 := 0
  pipeline1 := 0
  halted := 0
  cycles := 0
  ime := 1
  ie := 1
  irf := 1
  postFlg := 0
  cpu := false

/-- A concrete scheduler state: one external task pending at cycle 100,
NDS mode. -/
def baseSched : CoreSched := ⟨0, [⟨100, .external 0⟩], false⟩

/-- A concrete halted ARM7 state with IME = 0. -/
def arm7Halted : Interp := { baseInterp with ime := 0, cpu := true, halted := 1 }

/-- A concrete instantiation of the DLDI sentinel table. -/
def dldiSample : DldiSentinels :=
  ⟨0xF0000001, 0xF0000002, 0xF0000003, 0xF0000004, 0xF0000005, 0xF0000006⟩

/-! ### Helper lemmas -/

theorem land_ne_zero_of_testBit {a b : Nat} (i : Nat) (ha : a.testBit i = true)
    (hb : b.testBit i = true) : a &&& b ≠ 0 := by
  intro h
  have hbit := congrArg (fun x => x.testBit i) h
  simp [Nat.testBit_and, ha, hb] at hbit

theorem testBit_lnot32 (x : Nat) {i : Nat} (hi : i < 32) :
    (lnot32 x).testBit i = !x.testBit i := by
  have hmask : (0xFFFFFFFF : Nat) = 2 ^ 32 - 1 := by norm_num
  rw [lnot32, hmask, Nat.testBit_xor, Nat.testBit_and, Nat.testBit_two_pow_sub_one]
  simp [hi]

theorem getReg_setReg_self (s : Interp) (i v : Nat) : getReg (setReg s i v) i = v := by
  unfold getReg setReg
  cases h : s.binding i <;> simp [writeCell, readCell, h, upd]

theorem binding_setReg (s : Interp) (i v : Nat) : (setReg s i v).binding = s.binding := by
  unfold setReg
  cases s.binding i <;> rfl

theorem cpu_setReg (s : Interp) (i v : Nat) : (setReg s i v).cpu = s.cpu := by
  unfold setReg
  cases s.binding i <;> rfl

theorem cpsr_setReg (s : Interp) (i v : Nat) : (setReg s i v).cpsr = s.cpsr := by
  unfold setReg
  cases s.binding i <;> rfl

theorem readCell_writeSpsrBank (s : Interp) (r : SpsrRef) (v : Nat) (c : Cell) :
    readCell (writeSpsrBank s r v) c = readCell s c := by
  cases r <;> cases c <;> rfl

theorem getReg_congr {s t : Interp} (i : Nat)
    (hU : s.registersUsr = t.registersUsr) (hF : s.registersFiq = t.registersFiq)
    (hI : s.registersIrq = t.registersIrq) (hS : s.registersSvc = t.registersSvc)
    (hA : s.registersAbt = t.registersAbt) (hN : s.registersUnd = t.registersUnd)
    (hB : s.binding i = t.binding i) : getReg s i = getReg t i := by
  unfold getReg
  rw [hB]
  cases t.binding i <;> simp [readCell, hU, hF, hI, hS, hA, hN]

theorem saveSpsr_binding (s : Interp) (b : Bool) : (saveSpsr s b).binding = s.binding := by
  unfold saveSpsr
  cases b
  · rfl
  · cases h : s.spsrRef with
    | none => rfl
    | some r => cases r <;> rfl

theorem saveSpsr_spsrRef (s : Interp) (b : Bool) : (saveSpsr s b).spsrRef = s.spsrRef := by
  unfold saveSpsr
  cases b
  · rfl
  · cases h : s.spsrRef with
    | none => exact h
    | some r => cases r <;> simp [writeSpsrBank, h]

theorem saveSpsr_cpsr (s : Interp) (b : Bool) : (saveSpsr s b).cpsr = s.cpsr := by
  unfold saveSpsr
  cases b
  · rfl
  · cases h : s.spsrRef with
    | none => rfl
    | some r => cases r <;> rfl

theorem saveSpsr_cpu (s : Interp) (b : Bool) : (saveSpsr s b).cpu = s.cpu := by
  unfold saveSpsr
  cases b
  · rfl
  · cases h : s.spsrRef with
    | none => rfl
    | some r => cases r <;> rfl

theorem saveSpsr_halted (s : Interp) (b : Bool) : (saveSpsr s b).halted = s.halted := by
  unfold saveSpsr
  cases b
  · rfl
  · cases h : s.spsrRef with
    | none => rfl
    | some r => cases r <;> rfl

theorem getReg_saveSpsr (s : Interp) (b : Bool) (i : Nat) :
    getReg (saveSpsr s b) i = getReg s i := by
  unfold saveSpsr
  cases b
  · rfl
  · cases h : s.spsrRef with
    | none => rfl
    | some r =>
      unfold getReg
      rw [show (writeSpsrBank s r s.cpsr).binding = s.binding from by cases r <;> rfl]
      exact readCell_writeSpsrBank s r s.cpsr (s.binding i)

theorem saveSpsr_irq (s : Interp) (h : s.spsrRef = some .irq) :
    (saveSpsr s true).spsrIrq = s.cpsr := by
  unfold saveSpsr
  rw [h]
  rfl

theorem setReg_spsrIrq (s : Interp) (i v : Nat) : (setReg s i v).spsrIrq = s.spsrIrq := by
  unfold setReg
  cases s.binding i <;> rfl

theorem setReg_halted (s : Interp) (i v : Nat) : (setReg s i v).halted = s.halted := by
  unfold setReg
  cases s.binding i <;> rfl

theorem setReg_spsrRef (s : Interp) (i v : Nat) : (setReg s i v).spsrRef = s.spsrRef := by
  unfold setReg
  cases s.binding i <;> rfl

/-- `setCpsr`'s first component: the bank-swapped, SPSR-saved state with
the new CPSR stored (the trailing interrupt check touches only the
scheduler). -/
theorem setCpsr_fst (s : Interp) (v : Nat) (save : Bool) (c : CoreSched) :
    (setCpsr s v save c).1
      = { saveSpsr (if v &&& 0x1F ≠ s.cpsr &&& 0x1F then applyModeSwap s (v &&& 0x1F) else s)
            save with cpsr := v } := by
  unfold setCpsr
  dsimp only
  split <;> split <;> rfl

/-- When the stored CPSR has the IRQ-disable bit set, `setCpsr` does not
schedule anything. -/
theorem setCpsr_snd_of_bit7 (s : Interp) (v : Nat) (save : Bool) (c : CoreSched)
    (h : v &&& 0x80 ≠ 0) : (setCpsr s v save c).2 = c := by
  unfold setCpsr
  dsimp only
  rw [if_neg]
  intro hcon
  exact h hcon.2.2

theorem applyModeSwap_cpsr (s : Interp) (m : Nat) : (applyModeSwap s m).cpsr = s.cpsr := by
  unfold applyModeSwap
  repeat' split
  all_goals rfl

theorem getReg_pipelineUpd (s : Interp) (p0 p1 : Nat) (i : Nat) :
    getReg { s with pipeline0 := p0, pipeline1 := p1 } i = getReg s i := by
  unfold getReg
  show readCell { s with pipeline0 := p0, pipeline1 := p1 } (s.binding i)
    = readCell s (s.binding i)
  cases s.binding i <;> rfl

theorem flushPipeline_cpsr (mem : MemBus) (s : Interp) :
    (flushPipeline mem s).cpsr = s.cpsr := by
  unfold flushPipeline
  split <;> exact cpsr_setReg s 15 _

theorem flushPipeline_cpu (mem : MemBus) (s : Interp) :
    (flushPipeline mem s).cpu = s.cpu := by
  unfold flushPipeline
  split <;> exact cpu_setReg s 15 _

theorem flushPipeline_spsrRef (mem : MemBus) (s : Interp) :
    (flushPipeline mem s).spsrRef = s.spsrRef := by
  unfold flushPipeline
  split <;> exact setReg_spsrRef s 15 _

theorem flushPipeline_spsrIrq (mem : MemBus) (s : Interp) :
    (flushPipeline mem s).spsrIrq = s.spsrIrq := by
  unfold flushPipeline
  split <;> exact setReg_spsrIrq s 15 _

theorem flushPipeline_halted (mem : MemBus) (s : Interp) :
    (flushPipeline mem s).halted = s.halted := by
  unfold flushPipeline
  split <;> exact setReg_halted s 15 _

theorem saveSpsr_false (s : Interp) : saveSpsr s false = s := rfl

theorem applyModeSwap_binding15 (s : Interp) (m : Nat) :
    (applyModeSwap s m).binding 15 = s.binding 15 := by
  unfold applyModeSwap
  repeat' split
  all_goals rfl

theorem applyModeSwap_registersUsr (s : Interp) (m : Nat) :
    (applyModeSwap s m).registersUsr = s.registersUsr := by
  unfold applyModeSwap
  repeat' split
  all_goals rfl

theorem applyModeSwap_cpu (s : Interp) (m : Nat) : (applyModeSwap s m).cpu = s.cpu := by
  unfold applyModeSwap
  repeat' split
  all_goals rfl

theorem applyModeSwap_halted (s : Interp) (m : Nat) :
    (applyModeSwap s m).halted = s.halted := by
  unfold applyModeSwap
  repeat' split
  all_goals rfl

theorem getReg_imeUpd (t : Interp) (a b d e : Nat) (i : Nat) :
    getReg { t with ime := a, ie := b, irf := d, postFlg := e } i = getReg t i := by
  unfold getReg
  show readCell { t with ime := a, ie := b, irf := d, postFlg := e } (t.binding i)
    = readCell t (t.binding i)
  cases t.binding i <;> rfl

theorem getReg15_usr (t : Interp) (hb : t.binding 15 = Cell.usr 15) :
    getReg t 15 = t.registersUsr 15 := by
  unfold getReg
  rw [hb]
  rfl

theorem flushPipeline_pc_arm (mem : MemBus) (t : Interp) (h : t.cpsr &&& 0x20 = 0) :
    getReg (flushPipeline mem t) 15 = ((getReg t 15 &&& 0xFFFFFFFC) + 4) % M32 := by
  unfold flushPipeline
  rw [if_neg (by simp [h])]
  dsimp only
  rw [getReg_pipelineUpd, getReg_setReg_self]

theorem flushPipeline_regUsr_ne (mem : MemBus) (t : Interp) (i : Nat) (hne : i ≠ 15)
    (hb : t.binding 15 = Cell.usr 15) :
    (flushPipeline mem t).registersUsr i = t.registersUsr i := by
  unfold flushPipeline
  split <;>
  · show (setReg t 15 _).registersUsr i = t.registersUsr i
    unfold setReg
    rw [hb]
    show upd t.registersUsr 15 _ i = t.registersUsr i
    simp [upd, hne]

theorem getReg_haltUpd (t : Interp) (h : Nat) (i : Nat) :
    getReg { t with halted := h } i = getReg t i := by
  unfold getReg
  show readCell { t with halted := h } (t.binding i) = readCell t (t.binding i)
  cases t.binding i <;> rfl

theorem irqDelay_nds (b : Bool) : irqDelay b false = if b = true then 2 else 1 := by
  cases b <;> rfl

/-- The CPSR stored by `exception(0x18)` has mode bits 0x12. -/
theorem irq_cpsr_mode (x : Nat) :
    ((x &&& 0xFFFFFFC0) ||| 0x80 ||| 0x12) &&& 0x1F = 0x12 := by
  rw [Nat.and_comm _ 0x1F, Nat.and_or_distrib_left, Nat.and_or_distrib_left]
  rw [show (0x1F : Nat) &&& 0x80 = 0 from by decide]
  rw [Nat.or_zero]
  rw [show (0x1F : Nat) &&& 0x12 = 0x12 from by decide]
  rw [Nat.and_comm 0x1F _, Nat.and_assoc]
  rw [show (0xFFFFFFC0 : Nat) &&& 0x1F = 0 from by decide]
  rw [Nat.and_zero, Nat.zero_or]

/-- The CPSR stored by `exception(0x18)` has the IRQ-disable bit set. -/
theorem irq_cpsr_bit7 (x : Nat) :
    ((x &&& 0xFFFFFFC0) ||| 0x80 ||| 0x12).testBit 7 = true := by
  rw [Nat.testBit_or, Nat.testBit_or]
  simp [show Nat.testBit 0x80 7 = true from by decide]

/-- The CPSR stored by `exception(0x18)` has the THUMB bit clear. -/
theorem irq_cpsr_thumb (x : Nat) :
    ((x &&& 0xFFFFFFC0) ||| 0x80 ||| 0x12) &&& 0x20 = 0 := by
  rw [Nat.and_comm _ 0x20, Nat.and_or_distrib_left, Nat.and_or_distrib_left]
  rw [show (0x20 : Nat) &&& 0x80 = 0 from by decide]
  rw [show (0x20 : Nat) &&& 0x12 = 0 from by decide]
  rw [Nat.or_zero, Nat.or_zero]
  rw [Nat.and_comm 0x20 _, Nat.and_assoc]
  rw [show (0xFFFFFFC0 : Nat) &&& 0x20 = 0 from by decide]
  rw [Nat.and_zero]

/-- `exception(0x18)` without HLE BIOS: enters IRQ mode saving the old
CPSR into SPSR_irq, jumps to the vector and flushes the pipeline, and
leaves the scheduler and halt state untouched. -/
theorem exception_irq (mem : MemBus) (excAddr : Nat) (s : Interp) (c : CoreSched)
    (hcons : s.cpsr &&& 0x1F = 0x12 → s.spsrRef = some SpsrRef.irq) :
    ∃ s3 : Interp,
      exception mem excAddr false s c 0x18 = some (s3, c, 3) ∧
      s3.cpsr = (s.cpsr &&& 0xFFFFFFC0) ||| 0x80 ||| 0x12 ∧
      getReg s3 15
        = (((((if s.cpu = true then 0 else excAddr) + 0x18) % M32) &&& 0xFFFFFFFC) + 4)
            % M32 ∧
      s3.spsrIrq = s.cpsr ∧
      s3.halted = s.halted := by
  have hne80 : ((s.cpsr &&& 0xFFFFFFC0) ||| 0x80 ||| 0x12) &&& 0x80 ≠ 0 :=
    land_ne_zero_of_testBit 7 (irq_cpsr_bit7 s.cpsr) (by decide)
  have hc1 := setCpsr_snd_of_bit7 s ((s.cpsr &&& 0xFFFFFFC0) ||| 0x80 ||| 0x12) true c hne80
  have hfst := setCpsr_fst s ((s.cpsr &&& 0xFFFFFFC0) ||| 0x80 ||| 0x12) true c
  rw [irq_cpsr_mode] at hfst
  obtain ⟨sw, hswe, hswr, hswc, hswcpsr, hswhalt⟩ : ∃ sw : Interp,
      (if (0x12 : Nat) ≠ s.cpsr &&& 0x1F then applyModeSwap s 0x12 else s) = sw ∧
      sw.spsrRef = some SpsrRef.irq ∧ sw.cpu = s.cpu ∧ sw.cpsr = s.cpsr ∧
      sw.halted = s.halted := by
    by_cases hm : s.cpsr &&& 0x1F = 0x12
    · exact ⟨s, if_neg (fun hne => hne hm.symm), hcons hm, rfl, rfl, rfl⟩
    · exact ⟨applyModeSwap s 0x12, if_pos (fun heq => hm heq.symm), rfl, rfl, rfl, rfl⟩
  rw [hswe] at hfst
  unfold exception
  rw [if_neg (by simp)]
  dsimp only
  rw [show exceptionModes (0x18 >>> 2) = 0x12 from rfl]
  have hS1cpu : (setCpsr s ((s.cpsr &&& 0xFFFFFFC0) ||| 0x80 ||| 0x12) true c).1.cpu
      = s.cpu := by
    rw [hfst]
    show (saveSpsr sw true).cpu = s.cpu
    rw [saveSpsr_cpu, hswc]
  rw [cpu_setReg, hS1cpu]
  generalize (getReg (setCpsr s ((s.cpsr &&& 0xFFFFFFC0) ||| 0x80 ||| 0x12) true c).1 15
      + if readSpsr (setCpsr s ((s.cpsr &&& 0xFFFFFFC0) ||| 0x80 ||| 0x12) true c).1
          &&& 0x20 ≠ 0 then 2 else 0) % M32 = xv
  generalize ((if s.cpu = true then 0 else excAddr) + 0x18) % M32 = yv
  have h20 : (setReg (setReg (setCpsr s ((s.cpsr &&& 0xFFFFFFC0) ||| 0x80 ||| 0x12) true c).1
      14 xv) 15 yv).cpsr &&& 0x20 = 0 := by
    rw [cpsr_setReg, cpsr_setReg, hfst]
    show ((s.cpsr &&& 0xFFFFFFC0) ||| 0x80 ||| 0x12) &&& 0x20 = 0
    exact irq_cpsr_thumb s.cpsr
  refine ⟨flushPipeline mem
      (setReg (setReg (setCpsr s ((s.cpsr &&& 0xFFFFFFC0) ||| 0x80 ||| 0x12) true c).1
        14 xv) 15 yv), ?_, ?_, ?_, ?_, ?_⟩
  · rw [hc1]
  · rw [flushPipeline_cpsr, cpsr_setReg, cpsr_setReg, hfst]
  · rw [flushPipeline_pc_arm mem
      (setReg (setReg (setCpsr s ((s.cpsr &&& 0xFFFFFFC0) ||| 0x80 ||| 0x12) true c).1
        14 xv) 15 yv) h20, getReg_setReg_self]
  · rw [flushPipeline_spsrIrq, setReg_spsrIrq, setReg_spsrIrq, hfst]
    show (saveSpsr sw true).spsrIrq = s.cpsr
    rw [saveSpsr_irq sw hswr, hswcpsr]
  · rw [flushPipeline_halted, setReg_halted, setReg_halted, hfst]
    show (saveSpsr sw true).halted = s.halted
    rw [saveSpsr_halted, hswhalt]

/-! ### Claim theorems -/

theorem applyModeSwap_table (s : Interp) (m : Nat) :
    (knownModes.contains m = true →
      (∀ slot, 8 ≤ slot → slot ≤ 14 →
        (applyModeSwap s m).binding slot = specBankCell m slot) ∧
      (applyModeSwap s m).spsrRef = specSpsrRef m) ∧
    (knownModes.contains m = false →
      (applyModeSwap s m).binding = s.binding ∧
      (applyModeSwap s m).spsrRef = s.spsrRef) := by
  constructor
  · intro hmem
    have hcases : m = 0x10 ∨ m = 0x11 ∨ m = 0x12 ∨ m = 0x13 ∨ m = 0x17 ∨ m = 0x1B ∨
        m = 0x1F := by
      simpa [knownModes] using hmem
    rcases hcases with h | h | h | h | h | h | h <;> subst h <;>
      refine ⟨fun slot h8 h14 => ?_, rfl⟩ <;>
      · interval_cases slot <;> rfl
  · intro hmem
    simp only [knownModes, List.contains_cons, List.contains_nil, Bool.or_eq_false_iff,
      beq_eq_false_iff_ne, ne_eq] at hmem
    obtain ⟨h1, h2, h3, h4, h5, h6, h7, _⟩ := hmem
    unfold applyModeSwap
    rw [if_neg (by tauto), if_neg h2, if_neg h3, if_neg h4, if_neg h5, if_neg h6]
    exact ⟨rfl, rfl⟩

/-- C4: for every `setCpsr(v)` whose mode bits differ from the current
mode, the R8-R14 register slots and the `spsr` pointer afterwards follow
the section 4.1 mode table when `v`'s mode is one of the seven defined
modes, and are left unchanged (the value is only logged) otherwise. -/
theorem setCpsr_bank_routing (s : Interp) (v : Nat) (save : Bool) (c : CoreSched)
    (hdiff : v &&& 0x1F ≠ s.cpsr &&& 0x1F) :
    (knownModes.contains (v &&& 0x1F) = true →
      (∀ slot, 8 ≤ slot → slot ≤ 14 →
        (setCpsr s v save c).1.binding slot = specBankCell (v &&& 0x1F) slot) ∧
      (setCpsr s v save c).1.spsrRef = specSpsrRef (v &&& 0x1F)) ∧
    (knownModes.contains (v &&& 0x1F) = false →
      (setCpsr s v save c).1.binding = s.binding ∧
      (setCpsr s v save c).1.spsrRef = s.spsrRef) := by
  have hb : (setCpsr s v save c).1.binding = (applyModeSwap s (v &&& 0x1F)).binding := by
    rw [setCpsr_fst, if_pos hdiff]
    exact saveSpsr_binding _ _
  have hr : (setCpsr s v save c).1.spsrRef = (applyModeSwap s (v &&& 0x1F)).spsrRef := by
    rw [setCpsr_fst, if_pos hdiff]
    exact saveSpsr_spsrRef _ _
  have htab := applyModeSwap_table s (v &&& 0x1F)
  refine ⟨fun hmem => ⟨fun slot h8 h14 => ?_, ?_⟩, fun hmem => ⟨?_, ?_⟩⟩
  · rw [hb]
    exact (htab.1 hmem).1 slot h8 h14
  · rw [hr]
    exact (htab.1 hmem).2
  · rw [hb]
    exact (htab.2 hmem).1
  · rw [hr]
    exact (htab.2 hmem).2

/-- C2: In the NDS dual-CPU drive loop, after each inner-loop iteration
`globalCycles` is at most the minimum of `arm9.cycles` and `arm7.cycles`,
where a halted CPU's counter is treated as the maximum (32-bit) cycle
value; this holds for every state the iteration is run from, hence for
every reachable state of the loop. -/
theorem nds_inner_invariant (run9 run7 : NdsLoop → OpRun) (st : NdsLoop) :
    (ndsInnerIter run9 run7 st).globalCycles ≤
      min (haltedCyc (ndsInnerIter run9 run7 st).arm9Halted
            (ndsInnerIter run9 run7 st).arm9Cycles)
          (haltedCyc (ndsInnerIter run9 run7 st).arm7Halted
            (ndsInnerIter run9 run7 st).arm7Cycles) := by
  unfold ndsInnerIter
  exact Nat.le_refl _

/-- C3: `writeIrf(mask, value)` leaves `irf` equal to
`irf_before & ~(value & mask)`: each pending bit selected by
`value & mask` is cleared and every other (32-bit) bit is unchanged. -/
theorem writeIrf_ack (s : Interp) (mask value : Nat) :
    (writeIrf s mask value).irf = s.irf &&& lnot32 (value &&& mask) ∧
    ∀ i, i < 32 →
      (writeIrf s mask value).irf.testBit i
        = (s.irf.testBit i && !(value.testBit i && mask.testBit i)) := by
  refine ⟨rfl, fun i hi => ?_⟩
  show (s.irf &&& lnot32 (value &&& mask)).testBit i = _
  rw [Nat.testBit_and, testBit_lnot32 _ hi, Nat.testBit_and]

/-- C7: with IME = 0 and IE bit 0 set, `sendInterrupt(0)` on the ARM7
clears halt bit 0 without scheduling the interrupt task, while on the
ARM9 it leaves `halted` unchanged and schedules nothing (the ARM9 needs
IME = 1 to wake, the ARM7 wakes regardless); CPSR.I is arbitrary. -/
theorem sendInterrupt_halt_wake (s : Interp) (c : CoreSched)
    (hime : s.ime = 0) (hie : s.ie.testBit 0 = true) :
    (s.cpu = true →
      (sendInterrupt s c 0).1.halted.testBit 0 = false ∧ (sendInterrupt s c 0).2 = c) ∧
    (s.cpu = false →
      (sendInterrupt s c 0).1.halted = s.halted ∧ (sendInterrupt s c 0).2 = c) := by
  have hne : s.ie &&& (s.irf ||| 1) ≠ 0 := by
    apply land_ne_zero_of_testBit 0 hie
    simp [Nat.testBit_or]
  constructor
  · intro hcpu
    have hres : sendInterrupt s c 0
        = ({ s with irf := s.irf ||| 1, halted := s.halted &&& lnot32 0x01 }, c) := by
      unfold sendInterrupt
      simp [hne, hime, hcpu]
    rw [hres]
    refine ⟨?_, rfl⟩
    show (s.halted &&& lnot32 0x01).testBit 0 = false
    rw [Nat.testBit_and, testBit_lnot32 _ (by norm_num : (0:Nat) < 32)]
    simp
  · intro hcpu
    have hres : sendInterrupt s c 0 = ({ s with irf := s.irf ||| 1 }, c) := by
      unfold sendInterrupt
      simp [hne, hime, hcpu]
    rw [hres]
    exact ⟨rfl, rfl⟩

/-- C5: after every `flushPipeline`, in THUMB state the PC is forced even
then incremented by 2 and the pipeline slots hold the 16-bit reads at
PC-2 and PC; in ARM state the PC is forced word-aligned then incremented
by 4 and the pipeline slots hold the 32-bit reads at PC-4 and PC (all PC
arithmetic 32-bit). -/
theorem flushPipeline_refill (mem : MemBus) (s : Interp) :
    (s.cpsr &&& 0x20 ≠ 0 →
      getReg (flushPipeline mem s) 15 = ((getReg s 15 &&& 0xFFFFFFFE) + 2) % M32 ∧
      (flushPipeline mem s).pipeline0
        = mem.read16 s.cpu (sub32 (getReg (flushPipeline mem s) 15) 2) ∧
      (flushPipeline mem s).pipeline1 = mem.read16 s.cpu (getReg (flushPipeline mem s) 15)) ∧
    (s.cpsr &&& 0x20 = 0 →
      getReg (flushPipeline mem s) 15 = ((getReg s 15 &&& 0xFFFFFFFC) + 4) % M32 ∧
      (flushPipeline mem s).pipeline0
        = mem.read32 s.cpu (sub32 (getReg (flushPipeline mem s) 15) 4) ∧
      (flushPipeline mem s).pipeline1 = mem.read32 s.cpu (getReg (flushPipeline mem s) 15)) := by
  constructor
  · intro h
    unfold flushPipeline
    rw [if_pos h]
    dsimp only
    rw [getReg_pipelineUpd, getReg_setReg_self, cpu_setReg]
    exact ⟨rfl, rfl, rfl⟩
  · intro h
    unfold flushPipeline
    rw [if_neg (by simp [h])]
    dsimp only
    rw [getReg_pipelineUpd, getReg_setReg_self, cpu_setReg]
    exact ⟨rfl, rfl, rfl⟩

/-- C8: after `init()`, CPSR is 0x000000D3 (Supervisor, IRQ/FIQ disabled,
ARM state), R15 is the exception base (0xFFFF0000 on the ARM9, 0 on the
ARM7) plus the pipeline-flush adjustment of 4, the `spsr` pointer refers
to the Supervisor SPSR, and IME, IE, IRF and POSTFLG are all zero.  The
two hypotheses are the structural invariants of every reachable state:
slot 15 is bound to user storage, and a state already in Supervisor mode
has its `spsr` pointer on the Supervisor bank. -/
theorem init_cold_boot (mem : MemBus) (s : Interp) (c : CoreSched)
    (hb15 : s.binding 15 = Cell.usr 15)
    (hcons : s.cpsr &&& 0x1F = 0x13 → s.spsrRef = some SpsrRef.svc) :
    (init mem s c).1.cpsr = 0x000000D3 ∧
    getReg (init mem s c).1 15 = (if s.cpu = false then 0xFFFF0000 else 0) + 4 ∧
    (init mem s c).1.spsrRef = some SpsrRef.svc ∧
    (init mem s c).1.ime = 0 ∧ (init mem s c).1.ie = 0 ∧
    (init mem s c).1.irf = 0 ∧ (init mem s c).1.postFlg = 0 := by
  obtain ⟨sw, hswe, hswr, hswb, hswu, hswc⟩ : ∃ sw : Interp,
      (if (0x000000D3 : Nat) &&& 0x1F ≠ s.cpsr &&& 0x1F
          then applyModeSwap s ((0x000000D3 : Nat) &&& 0x1F) else s) = sw ∧
      sw.spsrRef = some SpsrRef.svc ∧ sw.binding 15 = Cell.usr 15 ∧
      sw.registersUsr = s.registersUsr ∧ sw.cpu = s.cpu := by
    by_cases hm : s.cpsr &&& 0x1F = 0x13
    · have hcond : ¬((0x000000D3 : Nat) &&& 0x1F ≠ s.cpsr &&& 0x1F) := by
        rw [hm]
        decide
      exact ⟨s, if_neg hcond, hcons hm, hb15, rfl, rfl⟩
    · have hcond : (0x000000D3 : Nat) &&& 0x1F ≠ s.cpsr &&& 0x1F := by
        intro heq
        apply hm
        rw [← heq]
        decide
      refine ⟨applyModeSwap s ((0x000000D3 : Nat) &&& 0x1F), if_pos hcond, ?_, ?_, ?_, ?_⟩
      · rfl
      · rw [applyModeSwap_binding15]
        exact hb15
      · rfl
      · rfl
  have hfst := setCpsr_fst s 0x000000D3 false c
  rw [hswe, saveSpsr_false] at hfst
  unfold init
  dsimp only
  rw [hfst]
  dsimp only
  set S2 : Interp := { sw with
    registersUsr := upd sw.registersUsr 15 (if sw.cpu = false then 0xFFFF0000 else 0),
    cpsr := 0x000000D3 } with hS2
  have h20 : S2.cpsr &&& 0x20 = 0 := by
    rw [hS2]
    show (0x000000D3 : Nat) &&& 0x20 = 0
    decide
  have hb2 : S2.binding 15 = Cell.usr 15 := by
    rw [hS2]
    exact hswb
  have hpc := flushPipeline_pc_arm mem S2 h20
  rw [getReg15_usr S2 hb2] at hpc
  have hreg : S2.registersUsr 15 = (if s.cpu = false then 0xFFFF0000 else 0) := by
    rw [hS2]
    show upd sw.registersUsr 15 _ 15 = _
    simp [upd, hswc]
  rw [hreg] at hpc
  refine ⟨?_, ?_, ?_, rfl, rfl, rfl, rfl⟩
  · show (flushPipeline mem S2).cpsr = 0x000000D3
    rw [flushPipeline_cpsr, hS2]
  · show getReg { flushPipeline mem S2 with ime := 0, ie := 0, irf := 0, postFlg := 0 } 15 = _
    rw [getReg_imeUpd, hpc]
    cases hcpu : s.cpu <;> decide
  · show (flushPipeline mem S2).spsrRef = some SpsrRef.svc
    rw [flushPipeline_spsrRef, hS2]
    exact hswr

theorem directBoot_core (mem : MemBus) (t : Interp) (c : CoreSched) (e : Nat)
    (ht : t.binding 15 = Cell.usr 15) :
    (flushPipeline mem
      { (setCpsr t 0x000000DF false c).1 with
        registersUsr := upd (upd (upd (setCpsr t 0x000000DF false c).1.registersUsr 12 e)
          14 e) 15 e }).registersUsr 12 = e ∧
    (flushPipeline mem
      { (setCpsr t 0x000000DF false c).1 with
        registersUsr := upd (upd (upd (setCpsr t 0x000000DF false c).1.registersUsr 12 e)
          14 e) 15 e }).registersUsr 14 = e ∧
    getReg (flushPipeline mem
      { (setCpsr t 0x000000DF false c).1 with
        registersUsr := upd (upd (upd (setCpsr t 0x000000DF false c).1.registersUsr 12 e)
          14 e) 15 e }) 15 = ((e &&& 0xFFFFFFFC) + 4) % M32 := by
  have hfst := setCpsr_fst t 0x000000DF false c
  rw [saveSpsr_false] at hfst
  have hswb : ((if (0x000000DF : Nat) &&& 0x1F ≠ t.cpsr &&& 0x1F
      then applyModeSwap t ((0x000000DF : Nat) &&& 0x1F) else t)).binding 15
      = Cell.usr 15 := by
    split
    · rw [applyModeSwap_binding15]
      exact ht
    · exact ht
  generalize hswe : (if (0x000000DF : Nat) &&& 0x1F ≠ t.cpsr &&& 0x1F
      then applyModeSwap t ((0x000000DF : Nat) &&& 0x1F) else t) = sw at hfst hswb
  rw [hfst]
  dsimp only
  set S3 : Interp := { sw with
    registersUsr := upd (upd (upd sw.registersUsr 12 e) 14 e) 15 e,
    cpsr := 0x000000DF } with hS3
  have hb3 : S3.binding 15 = Cell.usr 15 := by
    rw [hS3]
    exact hswb
  have h20 : S3.cpsr &&& 0x20 = 0 := by
    rw [hS3]
    show (0x000000DF : Nat) &&& 0x20 = 0
    decide
  refine ⟨?_, ?_, ?_⟩
  · rw [flushPipeline_regUsr_ne mem S3 12 (by decide) hb3, hS3]
    show upd (upd (upd sw.registersUsr 12 e) 14 e) 15 e 12 = e
    simp [upd]
  · rw [flushPipeline_regUsr_ne mem S3 14 (by decide) hb3, hS3]
    show upd (upd (upd sw.registersUsr 12 e) 14 e) 15 e 14 = e
    simp [upd]
  · rw [flushPipeline_pc_arm mem S3 h20, getReg15_usr S3 hb3, hS3]
    show ((upd (upd (upd sw.registersUsr 12 e) 14 e) 15 e 15 &&& 0xFFFFFFFC) + 4) % M32 = _
    simp [upd]

/-- C10: `directBoot` issues both guest-RAM reads of the cartridge entry
address with CPU id 0 (`false`, the ARM9 bus path), even when the CPU
being booted is the ARM7, which reads address 0x27FFE34: on either CPU
the value seeded into R12/R14/R15 is the CPU-0 read of the respective
header address (R15 additionally gets the ARM pipeline-flush
adjustment). -/
theorem directBoot_cpu0_read (mem : MemBus) (s : Interp) (c : CoreSched)
    (hb15 : s.binding 15 = Cell.usr 15) :
    (s.cpu = false →
      (directBoot mem s c).1.registersUsr 12 = mem.read32 false 0x27FFE24 ∧
      (directBoot mem s c).1.registersUsr 14 = mem.read32 false 0x27FFE24 ∧
      getReg (directBoot mem s c).1 15
        = ((mem.read32 false 0x27FFE24 &&& 0xFFFFFFFC) + 4) % M32) ∧
    (s.cpu = true →
      (directBoot mem s c).1.registersUsr 12 = mem.read32 false 0x27FFE34 ∧
      (directBoot mem s c).1.registersUsr 14 = mem.read32 false 0x27FFE34 ∧
      getReg (directBoot mem s c).1 15
        = ((mem.read32 false 0x27FFE34 &&& 0xFFFFFFFC) + 4) % M32) := by
  constructor
  · intro hcpu
    unfold directBoot
    dsimp only
    simp only [if_pos hcpu]
    exact directBoot_core mem _ c _ hb15
  · intro hcpu
    have hne : ¬(s.cpu = false) := by
      rw [hcpu]
      simp
    unfold directBoot
    dsimp only
    simp only [if_neg hne]
    exact directBoot_core mem _ c _ hb15

/-- C1 (amended): with IME=1, IE bit 0 set and CPSR.I=0 in NDS mode,
`sendInterrupt(0)` schedules the deferred `interrupt` task at delay 1 on
the ARM9 and delay 2 on the ARM7; when the task fires with the pending
condition still holding (HLE BIOS inactive, exception base word-aligned
and in 32-bit range), the CPSR mode bits become 0x12 (IRQ), CPSR.I
becomes 1, R15 equals exceptionBase + 0x18 + 4 (the + 4 being the
pipeline-flush adjustment), SPSR_irq equals the pre-interrupt CPSR, and
halt bit 0 is cleared. -/
theorem interrupt_delivery (s : Interp) (c : CoreSched) (mem : MemBus) (excAddr : Nat)
    (s2 : Interp) (c2 : CoreSched)
    (hime : s.ime ≠ 0) (hie : s.ie.testBit 0 = true) (hI : s.cpsr &&& 0x80 = 0)
    (hnds : c.gbaMode = false)
    (h2ime : s2.ime ≠ 0) (h2p : s2.ie &&& s2.irf ≠ 0) (h2I : s2.cpsr &&& 0x80 = 0)
    (h2cons : s2.cpsr &&& 0x1F = 0x12 → s2.spsrRef = some SpsrRef.irq)
    (halign : ((if s2.cpu = true then 0 else excAddr) + 0x18) &&& 0xFFFFFFFC
        = (if s2.cpu = true then 0 else excAddr) + 0x18)
    (hsize : (if s2.cpu = true then 0 else excAddr) + 0x18 + 4 < M32) :
    (sendInterrupt s c 0).2.tasks
      = insertTask c.tasks
          ⟨c.globalCycles + (if s.cpu = true then 2 else 1), .interruptOf s.cpu⟩ ∧
    ∃ s3 c3, interruptRun mem excAddr false s2 c2 = some (s3, c3) ∧
      s3.cpsr &&& 0x1F = 0x12 ∧
      s3.cpsr.testBit 7 = true ∧
      getReg s3 15 = (if s2.cpu = true then 0 else excAddr) + 0x18 + 4 ∧
      s3.spsrIrq = s2.cpsr ∧
      s3.halted.testBit 0 = false := by
  constructor
  · have hne : s.ie &&& (s.irf ||| 1) ≠ 0 := by
      apply land_ne_zero_of_testBit 0 hie
      simp [Nat.testBit_or]
    have hres : sendInterrupt s c 0
        = ({ s with irf := s.irf ||| 1 },
            schedule c (.interruptOf s.cpu) (irqDelay s.cpu c.gbaMode)) := by
      unfold sendInterrupt
      simp [hne, hime, hI]
    rw [hres]
    show insertTask c.tasks ⟨c.globalCycles + irqDelay s.cpu c.gbaMode, .interruptOf s.cpu⟩
      = _
    rw [hnds, irqDelay_nds]
  · obtain ⟨s3, hexc, hcpsr, hpc, hspsr, hhalt⟩ := exception_irq mem excAddr s2 c2 h2cons
    refine ⟨{ s3 with halted := s3.halted &&& lnot32 0x01 }, c2, ?_, ?_, ?_, ?_, ?_, ?_⟩
    · unfold interruptRun
      rw [if_pos ⟨h2ime, h2p, h2I⟩, hexc]
    · show s3.cpsr &&& 0x1F = 0x12
      rw [hcpsr]
      exact irq_cpsr_mode s2.cpsr
    · show s3.cpsr.testBit 7 = true
      rw [hcpsr]
      exact irq_cpsr_bit7 s2.cpsr
    · show getReg { s3 with halted := s3.halted &&& lnot32 0x01 } 15 = _
      rw [getReg_haltUpd, hpc]
      have hlt : (if s2.cpu = true then 0 else excAddr) + 0x18 < M32 := by omega
      rw [Nat.mod_eq_of_lt hlt, halign, Nat.mod_eq_of_lt hsize]
    · show s3.spsrIrq = s2.cpsr
      exact hspsr
    · show (s3.halted &&& lnot32 0x01).testBit 0 = false
      rw [Nat.testBit_and, testBit_lnot32 _ (by norm_num : (0:Nat) < 32)]
      simp

/-- C9: bit 0 of `postFlg` is monotonically non-decreasing under any
sequence of `writePostFlg` calls on either CPU: after the sequence it is
set exactly when it was set before or some written value had bit 0 set,
so once set it is never cleared. -/
theorem postFlg_bit0_monotone (s : Interp) (vs : List Nat) :
    ((vs.foldl writePostFlg s).postFlg).testBit 0
      = (s.postFlg.testBit 0 || vs.any (fun v => v.testBit 0)) := by
  induction vs generalizing s with
  | nil => simp
  | cons v rest ih =>
    have hstep : ((writePostFlg s v).postFlg).testBit 0
        = (s.postFlg.testBit 0 || v.testBit 0) := by
      have h256 : (256 : Nat) = 2 ^ 8 := by norm_num
      have tbm : ∀ x : Nat, (x % 256).testBit 0 = x.testBit 0 := by
        intro x
        rw [h256, Nat.testBit_mod_two_pow]
        simp
      have tba1 : ∀ x : Nat, (x &&& 0x01).testBit 0 = x.testBit 0 := by
        intro x
        rw [Nat.testBit_and]
        simp
      have tba2 : ∀ x : Nat, (x &&& 0x02).testBit 0 = false := by
        intro x
        rw [Nat.testBit_and]
        simp
      have tbal : ∀ x : Nat, (x &&& lnot32 0x02).testBit 0 = x.testBit 0 := by
        intro x
        rw [Nat.testBit_and, testBit_lnot32 _ (by norm_num : (0:Nat) < 32)]
        simp
      unfold writePostFlg
      by_cases hcpu : s.cpu = false <;>
        simp only [hcpu, if_true, if_false, eq_self_iff_true, ite_true, ite_false,
          Bool.false_eq_true, Bool.true_eq_false, tbm, tba1, tba2, tbal,
          Nat.testBit_or, Bool.or_false]
    simp [List.foldl_cons, ih, hstep, Bool.or_assoc]

/-- C6 (amended): a reserved-condition ARM opcode that is not the BLX
pattern and not the active-HLE sentinel 0xFF000000 is logged as unknown
and costs 1 cycle when the guest DLDI stub is NOT patched; when the stub
is patched, `handleReserved` instead takes the DLDI path — invoking
whichever callback the opcode matches (none for a non-sentinel) — and
returns via BX R14. -/
theorem handleReserved_unknown (biosActive patched : Bool) (d : DldiSentinels)
    (opcode : Nat)
    (hblx : opcode &&& 0x0E000000 ≠ 0x0A000000)
    (hhle : ¬(biosActive = true ∧ opcode = 0xFF000000)) :
    (patched = false →
      handleReserved biosActive patched d opcode = .unknown 1 ∧ unkArm opcode = 1) ∧
    (patched = true →
      handleReserved biosActive patched d opcode = .dldiRet (sentinelMatch d opcode)) := by
  constructor <;> intro hp <;> unfold handleReserved <;>
    rw [if_neg hblx, if_neg hhle] <;> simp [hp, unkArm]

/-- C6 counterexample: with the DLDI stub patched, the reserved opcode
0x12345678 — not BLX, not the HLE sentinel, not any DLDI sentinel — does
not take the log-unknown-cost-1 path: it takes the DLDI BX-R14 path with
no callback. -/
theorem handleReserved_unknown_counterexample :
    ((0x12345678 : Nat) &&& 0x0E000000 ≠ 0x0A000000) ∧
    ((0x12345678 : Nat) ≠ 0xFF000000) ∧
    sentinelMatch dldiSample 0x12345678 = none ∧
    handleReserved false true dldiSample 0x12345678 = .dldiRet none ∧
    handleReserved false true dldiSample 0x12345678 ≠ .unknown 1 := by
  decide

theorem handleReserved_unknown_witness :
    ((false : Bool) = false →
      handleReserved false false dldiSample 0x12345678 = .unknown 1 ∧
      unkArm 0x12345678 = 1) ∧
    ((false : Bool) = true →
      handleReserved false false dldiSample 0x12345678
        = .dldiRet (sentinelMatch dldiSample 0x12345678)) :=
  handleReserved_unknown false false dldiSample 0x12345678 (by decide) (by decide)

/-- C1 counterexample: at a concrete input satisfying the claim's
premises (IME=1, IE bit 0 set, CPSR.I=0, exception base 0xFFFF0000), the
fired interrupt task leaves R15 = 0xFFFF001C, not exceptionBase + 0x18 =
0xFFFF0018 as the claim states — the pipeline flush adds 4. -/
theorem interrupt_delivery_counterexample :
    baseInterp.ime = 1 ∧ baseInterp.ie.testBit 0 = true ∧
    baseInterp.cpsr &&& 0x80 = 0 ∧
    (interruptRun memZero 0xFFFF0000 false baseInterp baseSched).map
        (fun p => getReg p.1 15) = some 0xFFFF001C ∧
    (0xFFFF001C : Nat) ≠ 0xFFFF0000 + 0x18 := by
  refine ⟨rfl, by decide, by decide, ?_, by decide⟩
  decide

theorem interrupt_delivery_witness :
    ((sendInterrupt baseInterp baseSched 0).2.tasks
      = insertTask baseSched.tasks
          ⟨baseSched.globalCycles + (if baseInterp.cpu = true then 2 else 1),
            .interruptOf baseInterp.cpu⟩) ∧
    ∃ s3 c3, interruptRun memZero 0xFFFF0000 false baseInterp baseSched = some (s3, c3) ∧
      s3.cpsr &&& 0x1F = 0x12 ∧
      s3.cpsr.testBit 7 = true ∧
      getReg s3 15 = (if baseInterp.cpu = true then 0 else 0xFFFF0000) + 0x18 + 4 ∧
      s3.spsrIrq = baseInterp.cpsr ∧
      s3.halted.testBit 0 = false :=
  interrupt_delivery baseInterp baseSched memZero 0xFFFF0000 baseInterp baseSched
    (by decide) (by decide) (by decide) rfl
    (by decide) (by decide) (by decide)
    (by intro h; exact absurd h (by decide))
    (by decide) (by decide)

theorem writeIrf_ack_witness :
    (writeIrf baseInterp 0xFFFFFFFF 0x1).irf
      = baseInterp.irf &&& lnot32 (0x1 &&& 0xFFFFFFFF) ∧
    (writeIrf baseInterp 0xFFFFFFFF 0x1).irf.testBit 0
      = (baseInterp.irf.testBit 0
          && !((0x1 : Nat).testBit 0 && (0xFFFFFFFF : Nat).testBit 0)) :=
  ⟨(writeIrf_ack baseInterp 0xFFFFFFFF 0x1).1,
   (writeIrf_ack baseInterp 0xFFFFFFFF 0x1).2 0 (by decide)⟩

theorem setCpsr_bank_routing_witness :
    (knownModes.contains ((0x11 : Nat) &&& 0x1F) = true →
      (∀ slot, 8 ≤ slot → slot ≤ 14 →
        (setCpsr baseInterp 0x11 false baseSched).1.binding slot
          = specBankCell ((0x11 : Nat) &&& 0x1F) slot) ∧
      (setCpsr baseInterp 0x11 false baseSched).1.spsrRef
        = specSpsrRef ((0x11 : Nat) &&& 0x1F)) ∧
    (knownModes.contains ((0x11 : Nat) &&& 0x1F) = false →
      (setCpsr baseInterp 0x11 false baseSched).1.binding = baseInterp.binding ∧
      (setCpsr baseInterp 0x11 false baseSched).1.spsrRef = baseInterp.spsrRef) :=
  setCpsr_bank_routing baseInterp 0x11 false baseSched (by decide)

theorem flushPipeline_refill_witness :
    getReg (flushPipeline memZero baseInterp) 15
      = ((getReg baseInterp 15 &&& 0xFFFFFFFC) + 4) % M32 ∧
    (flushPipeline memZero baseInterp).pipeline0
      = memZero.read32 baseInterp.cpu
          (sub32 (getReg (flushPipeline memZero baseInterp) 15) 4) ∧
    (flushPipeline memZero baseInterp).pipeline1
      = memZero.read32 baseInterp.cpu (getReg (flushPipeline memZero baseInterp) 15) :=
  (flushPipeline_refill memZero baseInterp).2 (by decide)

theorem sendInterrupt_halt_wake_witness :
    (arm7Halted.cpu = true →
      (sendInterrupt arm7Halted baseSched 0).1.halted.testBit 0 = false ∧
      (sendInterrupt arm7Halted baseSched 0).2 = baseSched) ∧
    (arm7Halted.cpu = false →
      (sendInterrupt arm7Halted baseSched 0).1.halted = arm7Halted.halted ∧
      (sendInterrupt arm7Halted baseSched 0).2 = baseSched) :=
  sendInterrupt_halt_wake arm7Halted baseSched rfl (by decide)

theorem init_cold_boot_witness :
    (init memZero baseInterp baseSched).1.cpsr = 0x000000D3 ∧
    getReg (init memZero baseInterp baseSched).1 15
      = (if baseInterp.cpu = false then 0xFFFF0000 else 0) + 4 ∧
    (init memZero baseInterp baseSched).1.spsrRef = some SpsrRef.svc ∧
    (init memZero baseInterp baseSched).1.ime = 0 ∧
    (init memZero baseInterp baseSched).1.ie = 0 ∧
    (init memZero baseInterp baseSched).1.irf = 0 ∧
    (init memZero baseInterp baseSched).1.postFlg = 0 :=
  init_cold_boot memZero baseInterp baseSched rfl
    (by intro h; exact absurd h (by decide))

theorem directBoot_cpu0_read_witness :
    (baseInterp.cpu = false →
      (directBoot memZero baseInterp baseSched).1.registersUsr 12
        = memZero.read32 false 0x27FFE24 ∧
      (directBoot memZero baseInterp baseSched).1.registersUsr 14
        = memZero.read32 false 0x27FFE24 ∧
      getReg (directBoot memZero baseInterp baseSched).1 15
        = ((memZero.read32 false 0x27FFE24 &&& 0xFFFFFFFC) + 4) % M32) ∧
    (baseInterp.cpu = true →
      (directBoot memZero baseInterp baseSched).1.registersUsr 12
        = memZero.read32 false 0x27FFE34 ∧
      (directBoot memZero baseInterp baseSched).1.registersUsr 14
        = memZero.read32 false 0x27FFE34 ∧
      getReg (directBoot memZero baseInterp baseSched).1 15
        = ((memZero.read32 false 0x27FFE34 &&& 0xFFFFFFFC) + 4) % M32) :=
  directBoot_cpu0_read memZero baseInterp baseSched rfl

end NooDS
